import Mathlib

/-!
# Verification of the OSP daemon core (ospd/ospd.py)

Shallow embedding of the OSP daemon's protocol/session engine.  Pure string
formatting, the command dispatcher, the scan-lifecycle operations and the
per-command handlers are translated from `src/ospd/ospd.py`.  The scan
registry (`ScanCollection`) and the result-type table (`ResultType`) live in
`ospd/misc.py`, which is not part of the sources; those definitions are
modelled from the specification and say so in their doc comments.  Python
exceptions are embedded as an explicit `PyError` sum; mutable daemon state is
passed explicitly.
-/

set_option maxHeartbeats 1000000

namespace Ospd

/-! ## Python dict as association list -/

/-- Lookup in a Python dict modelled as an association list (first match). -/
def dictGet {α : Type} : List (String × α) → String → Option α
  | [], _ => none
  | (k, v) :: rest, key => if k = key then some v else dictGet rest key

/-- Python dict assignment `d[k] = v`: overwrite the existing binding in
place, else append a new one. -/
def dictInsert {α : Type} (key : String) (v : α) : List (String × α) → List (String × α)
  | [] => [(key, v)]
  | (k, v') :: rest => if k = key then (k, v) :: rest else (k, v') :: dictInsert key v rest

/-! ## Result taxonomy (from ospd/misc.py, absent from src) -/

/-- Modelled from the spec: `ResultType` of the missing `ospd/misc.py`; the
spec's section 3 fixes the taxonomy to the closed set Alert, Log, Error. -/
inductive ResultType where
  | alarm : ResultType
  | log : ResultType
  | error : ResultType
deriving DecidableEq

/-- Modelled from the spec: `ResultType.get_str` of the missing
`ospd/misc.py`, giving the wire name of each result type from the spec's
taxonomy (Alert, Log, Error). -/
def ResultType.get_str : ResultType → String
  | .alarm => "Alert"
  | .log => "Log"
  | .error => "Error"

/-- One scan result entry (spec section 3: Result). -/
structure ScanResult where
  rtype : ResultType
  name : String
  value : String
  severity : String
deriving DecidableEq

/-! ## XML escaping (xml.sax.saxutils.escape, as used by get_result_xml) -/

/-- One character-replacement pass of Python `str.replace(c, r)`, on char
lists. -/
def replacePass (c : Char) (r : List Char) : List Char → List Char
  | [] => []
  | x :: xs => (if x = c then r else [x]) ++ replacePass c r xs

/-- `xml.sax.saxutils.escape` with no extra entities: replace `&` first,
then `<`, then `>`.  This is the escaping `get_result_xml` applies to the
result's value field. -/
def xml_escape (s : String) : String :=
  (replacePass '>' ['&', 'g', 't', ';']
    (replacePass '<' ['&', 'l', 't', ';']
      (replacePass '&' ['&', 'a', 'm', 'p', ';'] s.toList))).asString

/-- `get_result_xml` (ospd.py lines 78-84): format one scan result; only the
value field goes through `xml_escape`. -/
def get_result_xml (result : ScanResult) : String :=
  "<result name=\"" ++ result.name ++ "\" type=\"" ++ ResultType.get_str result.rtype ++
    "\" severity=\"" ++ result.severity ++ "\">" ++ xml_escape result.value ++ "</result>"

/-! ## Python exceptions -/

/-- The Python exceptions that can escape the embedded code: `OSPDError`
(ospd.py lines 103-112, carrying message, command and numeric status),
failed `assert` statements, `KeyError` from registry point accessors on an
absent id, and `AttributeError` from calling a method on `None`. -/
inductive PyError where
  | ospdError (message : String) (command : String) (status : Nat)
  | assertionError (msg : String)
  | keyError
  | attributeError
deriving DecidableEq

/-- `simple_response_str` (ospd.py lines 86-100).  The three `assert`
statements reject a falsy command, status or status text (for the numeric
status, Python falsy means 0); otherwise the response envelope is built by
string formatting with no escaping. -/
def simple_response_str (command : String) (status : Nat) (status_text : String)
    (content : String) : Except PyError String :=
  if command = "" then .error (.assertionError "assert command")
  else if status = 0 then .error (.assertionError "assert status")
  else if status_text = "" then .error (.assertionError "assert status_text")
  else .ok ("<" ++ command ++ "_response status=\"" ++ toString status ++
    "\" status_text=\"" ++ status_text ++ "\">" ++ content ++ "</" ++ command ++ "_response>")

/-- `OSPDError.asXML` (ospd.py lines 111-112): render the error as a client
response through `simple_response_str`. -/
def ospdErrorAsXML (message : String) (command : String) (status : Nat) : Except PyError String :=
  simple_response_str command status message ""

/-! ## Parsed XML requests (the shape ET.fromstring hands to the handlers) -/

/-- A parsed XML element as the handlers consume it: tag, attribute dict,
optional text, child elements (mirroring `xml.etree` Element access:
`.tag`, `.attrib.get`, `.text`, iteration and `.find`). -/
structure XmlElem where
  tag : String
  attrib : List (String × String)
  text : Option String
  children : List XmlElem

/-! ## Nested dict rendering (get_xml_str) -/

/-- The value space of the nested dicts fed to `get_xml_str` (ospd.py lines
474-493): strings, nested dicts, lists of strings, or `None`. -/
inductive XmlVal where
  | str (s : String) : XmlVal
  | dict (m : List (String × XmlVal)) : XmlVal
  | list (l : List String) : XmlVal
  | noneV : XmlVal

/-- `tag.split()[0]`: first whitespace-separated token of the tag, used by
`get_xml_str` for the closing tag.  (All tags fed to it contain a token.) -/
def pyFirstWord (s : String) : String :=
  ((s.toList.dropWhile (· = ' ')).takeWhile (· ≠ ' ')).asString

/-- Recursive worker of `get_xml_str` (ospd.py lines 474-493): renders a
value, walking a dict's entries in order; list values are comma-joined,
`None` renders empty. -/
def xmlValStr : XmlVal → String
  | .str s => s
  | .noneV => ""
  | .list l => String.intercalate ", " l
  | .dict [] => ""
  | .dict ((tag, v) :: rest) =>
    "<" ++ tag ++ ">" ++ xmlValStr v ++ "</" ++ pyFirstWord tag ++ ">" ++ xmlValStr (.dict rest)

/-- `get_xml_str` (ospd.py lines 474-493). -/
def get_xml_str (data : List (String × XmlVal)) : String :=
  xmlValStr (.dict data)

/-! ## The scan registry (ScanCollection, from ospd/misc.py, absent from src) -/

/-- Modelled from the spec: one ScanRecord of the registry (spec section 3):
target, option dict (values may be Python `None`, hence `Option String`),
progress, timestamps, append-only result list, and the worker handle reported
as an abstract is-alive capability (`none` until `set_thread` is called). -/
structure Scan where
  target : String
  options : List (String × Option String)
  progress : Nat
  start_time : String
  end_time : String
  results : List ScanResult
  thread : Option Bool
deriving DecidableEq

/-- Modelled from the spec: the `ScanCollection` of the missing
`ospd/misc.py` — the concurrency-safe store keyed by scan id (spec section
4.1).  Fresh unique ids are abstracted as a counter; timestamps are
abstracted as opaque strings set at creation. -/
structure ScanCollection where
  scans : List (String × Scan)
  nextId : Nat
deriving DecidableEq

namespace ScanCollection

/-- Modelled from the spec: `create(target, options) -> id` allocates a fresh
unique id and stores a new record with progress 0 (spec section 4.1). -/
def create_scan (sc : ScanCollection) (target : String)
    (options : List (String × Option String)) : String × ScanCollection :=
  let scanId := toString sc.nextId
  (scanId, ⟨sc.scans ++ [(scanId, ⟨target, options, 0, "", "", [], none⟩)], sc.nextId + 1⟩)

/-- Apply `f` to the value bound to `key` in an association list. -/
def updateAssoc {α : Type} (key : String) (f : α → α) : List (String × α) → List (String × α)
  | [] => []
  | (k, v) :: rest =>
    if k = key then (k, f v) :: updateAssoc key f rest
    else (k, v) :: updateAssoc key f rest

/-- Update the record stored under `scanId`, if present. -/
def update (sc : ScanCollection) (scanId : String) (f : Scan → Scan) : ScanCollection :=
  ⟨updateAssoc scanId f sc.scans, sc.nextId⟩

/-- Modelled from the spec: `get/set progress(id)` point mutator (spec
section 4.1); the absent-id case is unreachable at the call sites, which
check existence first. -/
def set_progress (sc : ScanCollection) (scanId : String) (progress : Nat) : ScanCollection :=
  sc.update scanId (fun s => { s with progress := progress })

/-- Modelled from the spec: `append_result(id, result)` adds to the ordered
result sequence with no validation beyond existence of the id (spec section
4.1). -/
def add_result (sc : ScanCollection) (scanId : String) (r : ScanResult) : ScanCollection :=
  sc.update scanId (fun s => { s with results := s.results ++ [r] })

/-- Modelled from the spec: `add_error` appends an Error-typed result with
empty severity. -/
def add_error (sc : ScanCollection) (scanId : String) (name value : String) : ScanCollection :=
  sc.add_result scanId ⟨.error, name, value, ""⟩

/-- Modelled from the spec: `add_log` appends a Log-typed result. -/
def add_log (sc : ScanCollection) (scanId : String) (name value : String) : ScanCollection :=
  sc.add_result scanId ⟨.log, name, value, ""⟩

/-- Modelled from the spec: `add_alarm` appends an Alert-typed,
severity-bearing result. -/
def add_alarm (sc : ScanCollection) (scanId : String) (name value severity : String) :
    ScanCollection :=
  sc.add_result scanId ⟨.alarm, name, value, severity⟩

/-- Modelled from the spec: the registry's `set_option(id, name, value)`
(renamed here because its source name is a Lean keyword). -/
def setOptionValue (sc : ScanCollection) (scanId name : String) (value : Option String) :
    ScanCollection :=
  sc.update scanId (fun s => { s with options := dictInsert name value s.options })

/-- Modelled from the spec: `set_worker_handle(id, handle)`; a freshly
spawned thread is alive. -/
def set_thread (sc : ScanCollection) (scanId : String) (alive : Bool) : ScanCollection :=
  sc.update scanId (fun s => { s with thread := some alive })

/-- Modelled from the spec: `exists(id) -> bool`. -/
def id_exists (sc : ScanCollection) (scanId : String) : Bool :=
  (dictGet sc.scans scanId).isSome

/-- Modelled from the spec: `each_id()` snapshot iteration over the stored
ids. -/
def ids_iterator (sc : ScanCollection) : List String :=
  sc.scans.map Prod.fst

/-- Modelled from the spec: `delete(id) -> bool` removes the record iff it is
terminal (progress 100) and returns whether removal occurred (spec sections
3 and 4.1). -/
def delete_scan (sc : ScanCollection) (scanId : String) : Bool × ScanCollection :=
  match dictGet sc.scans scanId with
  | none => (false, sc)
  | some s =>
    if s.progress = 100 then
      (true, ⟨sc.scans.filter (fun p => p.1 ≠ scanId), sc.nextId⟩)
    else (false, sc)

end ScanCollection

/-! ## Daemon state -/

/-- A declared scanner parameter (spec section 6: name, type, description,
default); `default` is `Option` because `handle_start_scan_command` reads it
through `dict.get('default', '')` while `get_scanner_params_xml` indexes it
directly. -/
structure ScannerParam where
  name : String
  ptype : String
  description : String
  default : Option String
deriving DecidableEq

/-- Metadata of one protocol command in the command table (ospd.py lines
48-76): description, attribute dict, element dict. -/
structure CommandInfo where
  description : String
  attributes : Option (List (String × String))
  elements : Option (List (String × XmlVal))

/-- `get_commands_table` (ospd.py lines 48-76). -/
def get_commands_table : List (String × CommandInfo) :=
  [("start_scan", ⟨"Start a new scan.", some [("target", "Target host to scan")], none⟩),
   ("help", ⟨"Print the commands help.",
             some [("format", "Help format. Could be text or xml.")], none⟩),
   ("get_scans", ⟨"List the scans in buffer.",
                  some [("scan_id", "ID of a specific scan to get."),
                        ("details", "Whether to return the full scan report.")], none⟩),
   ("delete_scan", ⟨"Delete a finished scan.",
                    some [("scan_id", "ID of scan to delete.")], none⟩),
   ("get_version", ⟨"Return various versions.", none, none⟩),
   ("get_scanner_details", ⟨"Return scanner description and parameters", none, none⟩)]

/-- `OSP_VERSION` (ospd.py line 45). -/
def OSP_VERSION : String := "0.1.0"

/-- `OSPD_VERSION` (ospd.py line 46). -/
def OSPD_VERSION : String := "1.0+beta5"

/-- The daemon's mutable state (`OSPDaemon.__init__`, ospd.py lines
134-152).  The TLS credential paths are external inputs with no bearing on
command handling and are not carried. -/
structure OSPDaemon where
  scan_collection : ScanCollection
  daemonName : String
  daemonVersion : String
  daemonDescription : String
  scannerName : String
  scannerVersion : String
  scannerDescription : String
  scanner_params : List (String × ScannerParam)
  server_version : Option String
  commands : List (String × CommandInfo)

/-- The state `OSPDaemon.__init__` establishes (ospd.py lines 134-152). -/
def initDaemon : OSPDaemon :=
  { scan_collection := ⟨[], 0⟩
    daemonName := "OSPd"
    daemonVersion := OSPD_VERSION
    daemonDescription := "No description"
    scannerName := "No name"
    scannerVersion := "No version"
    scannerDescription := "No description"
    scanner_params := []
    server_version := none
    commands := get_commands_table }

/-- `command_exists` (ospd.py lines 168-170). -/
def command_exists (st : OSPDaemon) (name : String) : Bool :=
  (dictGet st.commands name).isSome

/-- `scan_exists` (ospd.py lines 355-360). -/
def scan_exists (st : OSPDaemon) (scanId : String) : Bool :=
  st.scan_collection.id_exists scanId

/-- `set_scan_progress` (ospd.py lines 351-353). -/
def set_scan_progress (st : OSPDaemon) (scanId : String) (progress : Nat) : OSPDaemon :=
  { st with scan_collection := st.scan_collection.set_progress scanId progress }

/-- `add_scan_error` (ospd.py lines 650-652). -/
def add_scan_error (st : OSPDaemon) (scanId : String) (name : String)
    (value : String) : OSPDaemon :=
  { st with scan_collection := st.scan_collection.add_error scanId name value }

/-- `add_scan_log` (ospd.py lines 646-648). -/
def add_scan_log (st : OSPDaemon) (scanId : String) (name : String)
    (value : String) : OSPDaemon :=
  { st with scan_collection := st.scan_collection.add_log scanId name value }

/-- `add_scan_alarm` (ospd.py lines 654-656). -/
def add_scan_alarm (st : OSPDaemon) (scanId : String) (name : String)
    (value : String) (severity : String) : OSPDaemon :=
  { st with scan_collection := st.scan_collection.add_alarm scanId name value severity }

/-- `finish_scan` (ospd.py lines 227-230): set progress to 100. -/
def finish_scan (st : OSPDaemon) (scanId : String) : OSPDaemon :=
  set_scan_progress st scanId 100

/-- `handle_timeout` (ospd.py lines 344-349): append a timeout Error result,
then finish the scan. -/
def handle_timeout (st : OSPDaemon) (scanId : String) : OSPDaemon :=
  finish_scan (add_scan_error st scanId "Timeout" (st.scannerName ++ " exec timeout.")) scanId

/-- `start_scan` (ospd.py lines 336-342): spawn the worker thread for
`exec_scan` and record its handle.  Thread spawning is the one concurrent
effect; it is embedded as recording a live worker handle, the thread's later
fate being an input to subsequent states. -/
def start_scan (st : OSPDaemon) (scanId : String) : OSPDaemon :=
  { st with scan_collection := st.scan_collection.set_thread scanId true }

/-- `create_scan` (ospd.py lines 599-607). -/
def create_scan (st : OSPDaemon) (target : String) (options : List (String × Option String)) :
    String × OSPDaemon :=
  let (scanId, sc) := st.scan_collection.create_scan target options
  (scanId, { st with scan_collection := sc })

/-- `get_scan_options` (ospd.py lines 609-611); `KeyError`-free projection of
the stored option dict. -/
def get_scan_options (st : OSPDaemon) (scanId : String) :
    Option (List (String × Option String)) :=
  (dictGet st.scan_collection.scans scanId).map Scan.options

/-- `process_scan_params` (ospd.py lines 193-195): the base class returns the
parameters unchanged. -/
def process_scan_params (_st : OSPDaemon) (params : List (String × Option String)) :
    List (String × Option String) :=
  params

/-- `check_scan_thread` (ospd.py lines 617-624): if the scan's progress is
below 100 and its recorded thread is no longer alive, force progress to 100
and append an Error result via `add_scan_error(scan_id, "",
"Scan thread failure.")` — positionally, name `""` and value
`"Scan thread failure."`.  Registry point accessors raise `KeyError` on an
absent id; `is_alive` on a never-set (`None`) handle raises
`AttributeError`, checked only when progress is below 100 because Python's
`and` short-circuits. -/
def check_scan_thread (st : OSPDaemon) (scanId : String) : Except PyError OSPDaemon :=
  match dictGet st.scan_collection.scans scanId with
  | none => .error .keyError
  | some scan =>
    if scan.progress < 100 then
      match scan.thread with
      | none => .error .attributeError
      | some alive =>
        if alive then .ok st
        else .ok (add_scan_error (set_scan_progress st scanId 100) scanId "" "Scan thread failure.")
    else .ok st

/-! ## Help rendering -/

/-- `n` spaces, as in Python `' ' * n`. -/
def spacesStr (n : Nat) : String :=
  (List.replicate n ' ').asString

/-- Python's format spec `{0: <22}`: left-justify in a field of 22. -/
def padLeftJust (s : String) (width : Nat) : String :=
  s ++ spacesStr (width - s.length)

/-- `elements_as_text` (ospd.py lines 421-436), processing a (nonempty at
the source's call sites) element dict: nested dicts recurse with a larger
indent, strings are printed inline, anything else trips
`assert False, "Only string or dictionnary"`; an empty nested dict trips the
entry `assert elems`. -/
def elements_as_text : List (String × XmlVal) → Nat → Except PyError String
  | [], _ => .ok ""
  | (elename, eledesc) :: rest, indent => do
    let descTxt ← match eledesc with
      | .dict [] => Except.error (.assertionError "assert elems")
      | .dict (e :: es) => do
        let t ← elements_as_text (e :: es) (indent + 2)
        pure ("\n" ++ t)
      | .str s => pure (s ++ "\n")
      | _ => Except.error (.assertionError "Only string or dictionnary")
    let t ← elements_as_text rest indent
    pure ("\t" ++ spacesStr indent ++ padLeftJust elename 22 ++ " " ++ descTxt ++ t)

/-- The per-command text block of `get_help_text` (ospd.py lines 404-419):
the attribute and element sections appear only when the respective dict is
truthy (non-`None` and nonempty). -/
def helpCommandText (name : String) (info : CommandInfo) : Except PyError String := do
  let base := "\t" ++ padLeftJust name 22 ++ " " ++ info.description ++ "\n"
  let withAttrs :=
    match info.attributes with
    | none => base
    | some [] => base
    | some attrs =>
      base ++ "\t Attributes:\n" ++
        String.join (attrs.map (fun a => "\t  " ++ padLeftJust a.1 22 ++ " " ++ a.2 ++ "\n"))
  match info.elements with
  | none => pure withAttrs
  | some [] => pure withAttrs
  | some elems => do
    let t ← elements_as_text elems 2
    pure (withAttrs ++ "\t Elements:\n" ++ t)

/-- `get_help_text` (ospd.py lines 404-419), iterating the command table in
its stored order. -/
def get_help_text (st : OSPDaemon) : Except PyError String := do
  let rec loop : List (String × CommandInfo) → Except PyError String
    | [] => pure ""
    | (name, info) :: rest => do
      let t ← helpCommandText name info
      let ts ← loop rest
      pure (t ++ ts)
  let body ← loop st.commands
  pure ("\n" ++ body)

/-- The nested dict `get_xml_str` receives for the xml help format: the
command table with its description, attribute and element entries. -/
def commandsAsXmlVal (st : OSPDaemon) : List (String × XmlVal) :=
  st.commands.map (fun p =>
    (p.1, XmlVal.dict
      [("description", .str p.2.description),
       ("attributes", match p.2.attributes with
         | none => .noneV
         | some attrs => .dict (attrs.map (fun a => (a.1, XmlVal.str a.2)))),
       ("elements", match p.2.elements with
         | none => .noneV
         | some elems => .dict elems)]))

/-- `handle_help_command` (ospd.py lines 389-402). -/
def handle_help_command (st : OSPDaemon) (et : XmlElem) : Except PyError String := do
  match dictGet et.attrib "format" with
  | none => do
    let txt ← get_help_text st
    simple_response_str "help" 200 "OK" txt
  | some fmt =>
    if fmt = "text" then do
      let txt ← get_help_text st
      simple_response_str "help" 200 "OK" txt
    else if fmt = "xml" then
      simple_response_str "help" 200 "OK" (get_xml_str (commandsAsXmlVal st))
    else .error (.ospdError "Bogus help format" "help" 400)

/-! ## Version and scanner details -/

/-- `get_scanner_params_xml` (ospd.py lines 245-255); indexing
`param['default']` raises `KeyError` when no default was declared. -/
def get_scanner_params_xml (st : OSPDaemon) : Except PyError String := do
  let rec loop : List (String × ScannerParam) → Except PyError String
    | [] => pure ""
    | (paramId, param) :: rest => do
      let dflt ← match param.default with
        | none => Except.error PyError.keyError
        | some d => pure d
      let ts ← loop rest
      pure ("<scanner_param id='" ++ paramId ++ "' type='" ++ param.ptype ++ "'><name>" ++
        param.name ++ "</name><description>" ++ param.description ++ "</description><default>" ++
        dflt ++ "</default></scanner_param>" ++ ts)
  let body ← loop st.scanner_params
  pure ("<scanner_params>" ++ body ++ "</scanner_params>")

/-- `handle_get_scanner_details` (ospd.py lines 518-527). -/
def handle_get_scanner_details (st : OSPDaemon) : Except PyError String := do
  let params ← get_scanner_params_xml st
  simple_response_str "get_scanner_details" 200 "OK"
    ("<description>" ++ st.scannerDescription ++ "</description>" ++ params)

/-- `handle_get_version_command` (ospd.py lines 529-548). -/
def handle_get_version_command (st : OSPDaemon) : Except PyError String :=
  let protocol := get_xml_str
    [("protocol", .dict [("name", .str "OSP"), ("version", .str OSP_VERSION)])]
  let daemon := get_xml_str
    [("daemon", .dict [("name", .str st.daemonName), ("version", .str st.daemonVersion)])]
  let scanner := get_xml_str
    [("scanner", .dict [("name", .str st.scannerName), ("version", .str st.scannerVersion)])]
  simple_response_str "get_version" 200 "OK" (protocol ++ daemon ++ scanner)

/-! ## start_scan -/

/-- `handle_start_scan_command` (ospd.py lines 197-219): require the
`target` attribute and `scanner_params` element, collect the client's
parameter children into a dict (`param.text` may be Python `None`), then
give every declared scanner parameter the client omitted its declared
default via `dict.get('default', '')`; store the merged set in a fresh scan
and start its worker. -/
def handle_start_scan_command (st : OSPDaemon) (et : XmlElem) :
    OSPDaemon × Except PyError String :=
  match dictGet et.attrib "target" with
  | none => (st, .error (.ospdError "No target attribute" "start_scan" 400))
  | some target =>
    match et.children.find? (fun c => c.tag = "scanner_params") with
    | none => (st, .error (.ospdError "No scanner_params element" "start_scan" 400))
    | some sp =>
      let params := sp.children.foldl (fun m c => dictInsert c.tag c.text m) []
      let params := st.scanner_params.foldl
        (fun m p =>
          if (dictGet m p.1).isSome then m
          else dictInsert p.1 (some (p.2.default.getD "")) m)
        params
      let (scanId, st) := create_scan st target (process_scan_params st params)
      let st := start_scan st scanId
      (st, simple_response_str "start_scan" 200 "OK" ("<id>" ++ scanId ++ "</id>"))

/-! ## get_scans -/

/-- The value of the `details` local of `handle_get_scans_command` (ospd.py
lines 368-372) after `if details and details == '0': details = False`: the
attribute string, Python `None`, or Python `False`; only the literal `False`
(i.e. attribute string `"0"`) disables result details in `get_scan_xml`'s
`detailed is False` test. -/
inductive PyDetails where
  | pyNone : PyDetails
  | pyFalse : PyDetails
  | pyStr (s : String) : PyDetails
deriving DecidableEq

/-- `get_scan_results_xml` (ospd.py lines 463-472). -/
def get_scan_results_xml (st : OSPDaemon) (scanId : String) : Except PyError String :=
  match dictGet st.scan_collection.scans scanId with
  | none => .error .keyError
  | some scan =>
    .ok ("<results>" ++ String.join (scan.results.map get_result_xml) ++ "</results>")

/-- `get_scan_xml` (ospd.py lines 496-516). -/
def get_scan_xml (st : OSPDaemon) (scanId : String) (detailed : PyDetails) :
    Except PyError String :=
  if scanId = "" then .ok (get_xml_str [("scan", .str "")])
  else
    match dictGet st.scan_collection.scans scanId with
    | none => .error .keyError
    | some scan => do
      let resultsStr ← if detailed = .pyFalse then pure "" else get_scan_results_xml st scanId
      pure ("<scan id=\"" ++ scanId ++ "\" target=\"" ++ scan.target ++ "\" progress=\"" ++
        toString scan.progress ++ "\" start_time=\"" ++ scan.start_time ++ "\" end_time=\"" ++
        scan.end_time ++ "\">" ++ resultsStr ++ "</scan>")

/-- The all-scans loop of `handle_get_scans_command` (ospd.py lines
383-386): check each scan's thread, then append its rendering. -/
def getScansLoop (st : OSPDaemon) (detailed : PyDetails) :
    List String → String → OSPDaemon × Except PyError String
  | [], acc => (st, .ok acc)
  | scanId :: rest, acc =>
    match check_scan_thread st scanId with
    | .error e => (st, .error e)
    | .ok st' =>
      match get_scan_xml st' scanId detailed with
      | .error e => (st', .error e)
      | .ok s => getScansLoop st' detailed rest (acc ++ s)

/-- `handle_get_scans_command` (ospd.py lines 362-387).  A truthy `scan_id`
attribute selects one scan — found scans are liveness-checked and rendered,
unknown ones answered with a 404 response; otherwise every stored scan is
listed. -/
def handle_get_scans_command (st : OSPDaemon) (et : XmlElem) :
    OSPDaemon × Except PyError String :=
  let detailed : PyDetails :=
    match dictGet et.attrib "details" with
    | none => .pyNone
    | some s => if s = "0" then .pyFalse else .pyStr s
  let listAll : OSPDaemon × Except PyError String :=
    match getScansLoop st detailed st.scan_collection.ids_iterator "" with
    | (st', .ok acc) => (st', simple_response_str "get_scans" 200 "OK" acc)
    | (st', .error e) => (st', .error e)
  match dictGet et.attrib "scan_id" with
  | none => listAll
  | some scanId =>
    if scanId = "" then listAll
    else if scanId ∈ st.scan_collection.ids_iterator then
      match check_scan_thread st scanId with
      | .error e => (st, .error e)
      | .ok st' =>
        match get_scan_xml st' scanId detailed with
        | .error e => (st', .error e)
        | .ok s => (st', simple_response_str "get_scans" 200 "OK" s)
    else
      (st, simple_response_str "get_scans" 404 ("Failed to find scan '" ++ scanId ++ "'") "")

/-! ## delete_scan -/

/-- `delete_scan` (ospd.py lines 456-461), delegating to the registry. -/
def delete_scan (st : OSPDaemon) (scanId : String) : Bool × OSPDaemon :=
  let (deleted, sc) := st.scan_collection.delete_scan scanId
  (deleted, { st with scan_collection := sc })

/-- `handle_delete_scan_command` (ospd.py lines 438-454): a missing
`scan_id` attribute and an unknown scan id are both answered with a 404
response; an existing scan is liveness-checked, then deleted when terminal,
while a still-running scan raises `OSPDError('Scan in progress',
'delete_scan')`. -/
def handle_delete_scan_command (st : OSPDaemon) (et : XmlElem) :
    OSPDaemon × Except PyError String :=
  match dictGet et.attrib "scan_id" with
  | none => (st, simple_response_str "delete_scan" 404 "No scan_id attribute" "")
  | some scanId =>
    if !scan_exists st scanId then
      (st, simple_response_str "delete_scan" 404 ("Failed to find scan '" ++ scanId ++ "'") "")
    else
      match check_scan_thread st scanId with
      | .error e => (st, .error e)
      | .ok st' =>
        let (deleted, st'') := delete_scan st' scanId
        if deleted then (st'', simple_response_str "delete_scan" 200 "OK" "")
        else (st'', .error (.ospdError "Scan in progress" "delete_scan" 400))

/-! ## Command dispatch and the client stream -/

/-- `handle_command` (ospd.py lines 550-577).  Its argument is the outcome
of the external `ET.fromstring`: a parse failure raises
`OSPDError('Invalid data')`; a root tag that is neither a table command nor
the legacy `authenticate` tag raises `OSPDError('Bogus command name')`;
known commands dispatch to their handlers, and anything else — reachable
exactly by `authenticate` — hits `assert False, "Unhandled command: ..."`. -/
def handle_command (st : OSPDaemon) (parsed : Except Unit XmlElem) :
    OSPDaemon × Except PyError String :=
  match parsed with
  | .error _ => (st, .error (.ospdError "Invalid data" "osp" 400))
  | .ok tree =>
    if !command_exists st tree.tag && tree.tag ≠ "authenticate" then
      (st, .error (.ospdError "Bogus command name" "osp" 400))
    else if tree.tag = "get_version" then (st, handle_get_version_command st)
    else if tree.tag = "start_scan" then handle_start_scan_command st tree
    else if tree.tag = "get_scans" then handle_get_scans_command st tree
    else if tree.tag = "delete_scan" then handle_delete_scan_command st tree
    else if tree.tag = "help" then (st, handle_help_command st tree)
    else if tree.tag = "get_scanner_details" then (st, handle_get_scanner_details st)
    else (st, .error (.assertionError ("Unhandled command: " ++ tree.tag)))

/-- The response logic of `handle_client_stream` (ospd.py lines 293-318)
once a complete nonempty request has been read off the stream (the read
loop itself is socket I/O): run `handle_command` on the parse outcome,
convert a raised `OSPDError` to its XML via `asXML`, and write the result;
any other exception propagates and nothing is written (`none`). -/
def handle_client_stream (st : OSPDaemon) (parsed : Except Unit XmlElem) :
    OSPDaemon × Except PyError (Option String) :=
  match handle_command st parsed with
  | (st', .ok resp) => (st', .ok (some resp))
  | (st', .error (.ospdError m c s)) =>
    match ospdErrorAsXML m c s with
    | .ok x => (st', .ok (some x))
    | .error e => (st', .error e)
  | (st', .error e) => (st', .error e)

/-! ## A conservative model of the external XML parser

`handle_command` hands raw request bytes to `xml.etree`'s `ET.fromstring`,
an external library.  The spec's Protocol Codec contract (section 4.3) calls
this `parse`.  The model below parses a single root element —
`<tag a="v" ...>text</tag>` or `<tag a="v" .../>` — and is conservative:
it succeeds only on inputs free of entity references and nested markup, a
strict subset of what `ET.fromstring` accepts, and agrees with it there. -/

/-- First character of an XML name (letters and underscore). -/
def isNameStartChar (c : Char) : Bool := c.isAlpha || c = '_'

/-- Continuation character of an XML name. -/
def isNameChar (c : Char) : Bool := c.isAlphanum || c = '_'

/-- Characters allowed verbatim inside a double-quoted attribute value. -/
def attrValChar (c : Char) : Bool := c ≠ '"' && c ≠ '<' && c ≠ '&'

/-- Characters allowed verbatim in text content. -/
def textChar (c : Char) : Bool := c ≠ '<' && c ≠ '&'

/-- Modelled from the spec: the attribute scanner of the external parser.
Each loop step consumes `>`, `/>`, or one space-separated `name="value"`
attribute; the fuel bounds the number of attributes and is in practice the
input length. -/
def parseAttrsF : Nat → List Char → List (String × String) →
    Option (List (String × String) × Bool × List Char)
  | 0, _, _ => none
  | _ + 1, '>' :: rest, acc => some (acc, false, rest)
  | _ + 1, '/' :: '>' :: rest, acc => some (acc, true, rest)
  | f + 1, ' ' :: rest, acc =>
    match rest.takeWhile isNameChar with
    | [] => none
    | c0 :: cs =>
      if !isNameStartChar c0 then none
      else
        match rest.dropWhile isNameChar with
        | '=' :: '"' :: rest2 =>
          (match rest2.dropWhile attrValChar with
           | '"' :: rest3 =>
             parseAttrsF f rest3
               (acc ++ [((c0 :: cs).asString, (rest2.takeWhile attrValChar).asString)])
           | _ => none)
        | _ => none
  | _ + 1, _, _ => none

/-- The character-level worker of the modelled external parser: one root
element with plain attributes, then either `/>` or text content and the
matching closing tag. -/
def parseXmlList : List Char → Option XmlElem
  | '<' :: rest =>
    (match rest.takeWhile isNameChar with
     | [] => none
     | c0 :: cs =>
       if !isNameStartChar c0 then none
       else
         match parseAttrsF (rest.length + 1) (rest.dropWhile isNameChar) [] with
         | none => none
         | some (attrs, true, rest2) =>
           if rest2 = [] then some ⟨(c0 :: cs).asString, attrs, none, []⟩ else none
         | some (attrs, false, rest2) =>
           let bodyCs := rest2.takeWhile textChar
           match rest2.dropWhile textChar with
           | '<' :: '/' :: rest3 =>
             if rest3 = (c0 :: cs) ++ ['>'] then
               some ⟨(c0 :: cs).asString, attrs,
                 if bodyCs = [] then none else some bodyCs.asString, []⟩
             else none
           | _ => none)
  | _ => none

/-- Modelled from the spec: `parse` — the external `ET.fromstring`,
restricted to one root element with plain attributes and text-only content;
`none` is the `ParseError` case.  As in `xml.etree`, an empty body yields
`text = None`. -/
def parseXml (s : String) : Option XmlElem :=
  parseXmlList s.toList

/-- One complete request, end to end: parse the raw payload with the
modelled external parser and run `handle_client_stream`'s response logic on
the outcome. -/
def handleRequest (st : OSPDaemon) (raw : String) : OSPDaemon × Except PyError (Option String) :=
  handle_client_stream st
    (match parseXml raw with
     | some tree => .ok tree
     | none => .error ())

/-! ## A single-pass escaping specification

`xml_escape` runs three sequential `replace` passes.  The single
simultaneous pass below is the obvious specification; their equality says
no pass double-escapes the output of an earlier one. -/

/-- Single simultaneous escaping pass over a character list: `&`, `<` and
`>` become their entities, all else passes through. -/
def escAllPass : List Char → List Char
  | [] => []
  | c :: cs =>
    (if c = '&' then ['&', 'a', 'm', 'p', ';']
     else if c = '<' then ['&', 'l', 't', ';']
     else if c = '>' then ['&', 'g', 't', ';']
     else [c]) ++ escAllPass cs

/-- `xml_escape` as a single simultaneous pass. -/
def xmlEscapeOnePass (s : String) : String :=
  (escAllPass s.toList).asString

/-- The escaping claimed by the spec sentence behind C7 — `&`, `<`, `>`
*and the quote character* — written from the claim's words, for comparison
with what `get_result_xml` actually does. -/
def claimedEscape : List Char → List Char
  | [] => []
  | c :: cs =>
    (if c = '&' then ['&', 'a', 'm', 'p', ';']
     else if c = '<' then ['&', 'l', 't', ';']
     else if c = '>' then ['&', 'g', 't', ';']
     else if c = '"' then ['&', 'q', 'u', 'o', 't', ';']
     else [c]) ++ claimedEscape cs

/-- The result rendering the claim behind C7 describes: the quote-inclusive
escaping applied uniformly to name, severity and value.  Written from the
claim's words, for comparison with `get_result_xml`. -/
def claimedResultXml (result : ScanResult) : String :=
  "<result name=\"" ++ (claimedEscape result.name.toList).asString ++ "\" type=\"" ++
    ResultType.get_str result.rtype ++ "\" severity=\"" ++
    (claimedEscape result.severity.toList).asString ++ "\">" ++
    (claimedEscape result.value.toList).asString ++ "</result>"

/-! ## Concrete states used by the counterexamples and witnesses -/

/-- A scan whose worker died at progress 40, with no results yet. -/
def scan40 : Scan := ⟨"10.0.0.1", [], 40, "", "", [], some false⟩

/-- A daemon holding only `scan40` under id `"0"`. -/
def d40 : OSPDaemon := { initDaemon with scan_collection := ⟨[("0", scan40)], 1⟩ }

/-- A daemon holding one scan under id `"0"` at progress 40 whose worker is
still alive. -/
def dAlive : OSPDaemon :=
  { initDaemon with scan_collection := ⟨[("0", { scan40 with thread := some true })], 1⟩ }

/-- A daemon holding one finished scan (progress 100) under id `"7"`. -/
def dTerm : OSPDaemon :=
  { initDaemon with scan_collection := ⟨[("7", { scan40 with progress := 100 })], 8⟩ }

/-- A daemon declaring a single scanner parameter `scan_type` with default
`"full"` (the claim C5 scenario). -/
def dC5 : OSPDaemon :=
  { initDaemon with
    scanner_params := [("scan_type", ⟨"Scan type", "string", "The type of scan", some "full"⟩)] }

/-! # Theorems

General-purpose lemmas first, then one theorem per claim (with its
counterexample and witness where required). -/

/-! ## String helpers -/

theorem strExt (a b : String) (h : a.toList = b.toList) : a = b := by
  cases a
  cases b
  exact congrArg String.mk h

theorem toListApp (a b : String) : (a ++ b).toList = a.toList ++ b.toList := rfl

theorem append_ne_empty_left (a b : String) (ha : a ≠ "") : a ++ b ≠ "" := by
  intro h
  apply ha
  have hd : a.data ++ b.data = [] := congrArg String.data h
  have h1 : a.data = [] := (List.append_eq_nil.mp hd).1
  cases a
  simp only at h1
  rw [h1]

/-- Reduction of `simple_response_str` when its three asserts pass. -/
theorem simple_response_str_ok (c : String) (s : Nat) (t b : String)
    (hc : c ≠ "") (hs : s ≠ 0) (ht : t ≠ "") :
    simple_response_str c s t b =
      .ok ("<" ++ c ++ "_response status=\"" ++ toString s ++ "\" status_text=\"" ++ t ++
        "\">" ++ b ++ "</" ++ c ++ "_response>") := by
  simp [simple_response_str, hc, hs, ht]

/-! ## Association-list helpers -/

theorem dictGet_update_self {α : Type} (l : List (String × α)) (k : String) (f : α → α)
    (v : α) (h : dictGet l k = some v) :
    dictGet (ScanCollection.updateAssoc k f l) k = some (f v) := by
  induction l with
  | nil => simp [dictGet] at h
  | cons hd tl ih =>
    obtain ⟨k1, v1⟩ := hd
    by_cases hk : k1 = k
    · rw [dictGet, if_pos hk] at h
      injection h with h
      subst h
      simp [ScanCollection.updateAssoc, dictGet, hk]
    · rw [dictGet, if_neg hk] at h
      simp [ScanCollection.updateAssoc, dictGet, hk, ih h]

theorem dictGet_filter_self {α : Type} (l : List (String × α)) (k : String) :
    dictGet (l.filter (fun p => p.1 ≠ k)) k = none := by
  induction l with
  | nil => simp [dictGet]
  | cons hd tl ih =>
    obtain ⟨k1, v1⟩ := hd
    by_cases hk : k1 = k
    · simpa [List.filter_cons, hk] using ih
    · simpa [List.filter_cons, hk, dictGet] using ih

theorem not_mem_map_fst_filter {α : Type} (l : List (String × α)) (k : String) :
    k ∉ (l.filter (fun p => p.1 ≠ k)).map Prod.fst := by
  induction l with
  | nil => simp
  | cons hd tl ih =>
    obtain ⟨k1, v1⟩ := hd
    by_cases hk : k1 = k
    · simpa [List.filter_cons, hk] using ih
    · simp [List.filter_cons, hk, ih]
      exact fun he => hk he.symm

theorem dictGet_insert_self {α : Type} (l : List (String × α)) (k : String) (v : α) :
    dictGet (dictInsert k v l) k = some v := by
  induction l with
  | nil => simp [dictInsert, dictGet]
  | cons hd tl ih =>
    obtain ⟨k1, v1⟩ := hd
    by_cases hk : k1 = k
    · simp [dictInsert, hk, dictGet]
    · simp [dictInsert, hk, dictGet, ih]

theorem dictGet_insert_ne {α : Type} (l : List (String × α)) (k k' : String) (v : α)
    (h : k' ≠ k) : dictGet (dictInsert k v l) k' = dictGet l k' := by
  induction l with
  | nil => simp [dictInsert, dictGet, Ne.symm h]
  | cons hd tl ih =>
    obtain ⟨k1, v1⟩ := hd
    by_cases hk : k1 = k
    · subst hk
      simp [dictInsert, dictGet, Ne.symm h]
    · simp [dictInsert, hk, dictGet, ih]

theorem dictGet_append_of_not_mem {α : Type} (l l2 : List (String × α)) (k : String)
    (h : k ∉ l.map Prod.fst) : dictGet (l ++ l2) k = dictGet l2 k := by
  induction l with
  | nil => simp
  | cons hd tl ih =>
    obtain ⟨k1, v1⟩ := hd
    simp only [List.map_cons, List.mem_cons] at h
    push_neg at h
    simp [dictGet, Ne.symm h.1, ih h.2]

/-! ## Escaping helpers -/

theorem replacePass_append (c : Char) (r : List Char) (l1 l2 : List Char) :
    replacePass c r (l1 ++ l2) = replacePass c r l1 ++ replacePass c r l2 := by
  induction l1 with
  | nil => rfl
  | cons x xs ih => simp [replacePass, ih]

/-- The three sequential replacement passes of `xml_escape` coincide with
the single simultaneous pass: later passes never rewrite the entities
introduced by earlier ones. -/
theorem escape_passes_eq (l : List Char) :
    replacePass '>' ['&', 'g', 't', ';']
      (replacePass '<' ['&', 'l', 't', ';']
        (replacePass '&' ['&', 'a', 'm', 'p', ';'] l)) = escAllPass l := by
  induction l with
  | nil => rfl
  | cons x xs ih =>
    by_cases h1 : x = '&'
    · subst h1
      simp [replacePass, escAllPass, replacePass_append, ih]
    · by_cases h2 : x = '<'
      · subst h2
        simp [replacePass, escAllPass, replacePass_append, ih, h1]
      · by_cases h3 : x = '>'
        · subst h3
          simp [replacePass, escAllPass, replacePass_append, ih, h1, h2]
        · simp [replacePass, escAllPass, replacePass_append, ih, h1, h2, h3]

/-- The simultaneous escaping pass emits no raw angle bracket. -/
theorem escAllPass_no_angle (l : List Char) :
    '<' ∉ escAllPass l ∧ '>' ∉ escAllPass l := by
  induction l with
  | nil => simp [escAllPass]
  | cons x xs ih =>
    by_cases h1 : x = '&'
    · subst h1
      simp [escAllPass, ih.1, ih.2]
    · by_cases h2 : x = '<'
      · subst h2
        simp [escAllPass, h1, ih.1, ih.2]
      · by_cases h3 : x = '>'
        · subst h3
          simp [escAllPass, h1, h2, ih.1, ih.2]
        · simp [escAllPass, h1, h2, h3, ih.1, ih.2]
          exact ⟨fun he => h2 he.symm, fun he => h3 he.symm⟩

/-! ## Claim C4 (corrected: the pre-delete liveness check can finish a
below-100 scan whose worker died, after which deletion succeeds)

`handle_delete_scan_command` runs `check_scan_thread` before asking the
registry to delete, so a scan below progress 100 whose worker already died
is forced terminal and then deleted with status 200 — contradicting the
claim that every below-100 scan is answered with a Conflict error. -/

/-- C4 counterexample: scan `"0"` is at progress 40 (below 100), yet
`delete_scan` on it succeeds with status 200 and removes it, because its
worker thread is dead and the pre-delete liveness check forces it
terminal. -/
theorem claim4_counterexample :
    (dictGet d40.scan_collection.scans "0").map Scan.progress = some 40 ∧
    ∃ st', handle_delete_scan_command d40 ⟨"delete_scan", [("scan_id", "0")], none, []⟩ =
        (st', .ok "<delete_scan_response status=\"200\" status_text=\"OK\"></delete_scan_response>") ∧
      scan_exists st' "0" = false :=
  ⟨rfl, _, rfl, rfl⟩

/-- C4 (amended): for an existing scan whose worker thread is still alive,
`delete_scan` at progress below 100 raises the Conflict error
`OSPDError('Scan in progress', 'delete_scan')` and leaves the scan present;
at progress 100 it removes the scan and answers 200, and a subsequent
`get_scans` for that id is answered 404 Not-Found. -/
theorem claim4_amended (st : OSPDaemon) (scanId : String) (scan : Scan)
    (h : dictGet st.scan_collection.scans scanId = some scan) (hid : scanId ≠ "") :
    (scan.progress < 100 → scan.thread = some true →
      handle_delete_scan_command st ⟨"delete_scan", [("scan_id", scanId)], none, []⟩ =
        (st, .error (.ospdError "Scan in progress" "delete_scan" 400)) ∧
      scan_exists st scanId = true) ∧
    (scan.progress = 100 →
      ∃ st', handle_delete_scan_command st ⟨"delete_scan", [("scan_id", scanId)], none, []⟩ =
          (st', .ok "<delete_scan_response status=\"200\" status_text=\"OK\"></delete_scan_response>") ∧
        scan_exists st' scanId = false ∧
        handle_get_scans_command st' ⟨"get_scans", [("scan_id", scanId)], none, []⟩ =
          (st', .ok ("<get_scans_response status=\"404\" status_text=\"Failed to find scan '" ++
            scanId ++ "'\"></get_scans_response>"))) := by
  have hex : scan_exists st scanId = true := by
    simp [scan_exists, ScanCollection.id_exists, h]
  constructor
  · intro hprog halive
    refine ⟨?_, hex⟩
    have hck : check_scan_thread st scanId = .ok st := by
      simp [check_scan_thread, h, hprog, halive]
    have hdel : st.scan_collection.delete_scan scanId = (false, st.scan_collection) := by
      simp [ScanCollection.delete_scan, h, Nat.ne_of_lt hprog]
    simp [handle_delete_scan_command, dictGet, hex, hck, delete_scan, hdel]
  · intro hprog
    have hck : check_scan_thread st scanId = .ok st := by
      simp [check_scan_thread, h, hprog]
    have hdel : st.scan_collection.delete_scan scanId =
        (true, ⟨st.scan_collection.scans.filter (fun p => p.1 ≠ scanId),
          st.scan_collection.nextId⟩) := by
      simp [ScanCollection.delete_scan, h, hprog]
    refine ⟨{ st with scan_collection := ⟨st.scan_collection.scans.filter (fun p => p.1 ≠ scanId),
      st.scan_collection.nextId⟩ }, ?_, ?_, ?_⟩
    · simp [handle_delete_scan_command, dictGet, hex, hck, delete_scan, hdel]
      rfl
    · show (dictGet (st.scan_collection.scans.filter (fun p => p.1 ≠ scanId)) scanId).isSome
        = false
      rw [dictGet_filter_self]
      rfl
    · have hmem := not_mem_map_fst_filter st.scan_collection.scans scanId
      have hne : ("Failed to find scan '" ++ scanId ++ "'") ≠ "" :=
        append_ne_empty_left _ _ (append_ne_empty_left _ _ (by decide))
      rw [handle_get_scans_command]
      simp only [dictGet, reduceIte, ScanCollection.ids_iterator]
      rw [if_neg hid, if_neg hmem]
      rw [simple_response_str_ok _ _ _ _ (by decide) (by decide) hne]
      refine congrArg _ (congrArg _ (strExt _ _ ?_))
      simp only [toListApp, List.append_assoc]
      rfl

/-- C4 witness: the amended theorem at a live below-100 scan (Conflict) and
at a finished scan (deleted, then 404 on `get_scans`). -/
theorem claim4_witness :
    (handle_delete_scan_command dAlive ⟨"delete_scan", [("scan_id", "0")], none, []⟩ =
      (dAlive, .error (.ospdError "Scan in progress" "delete_scan" 400)) ∧
     scan_exists dAlive "0" = true) ∧
    (∃ st', handle_delete_scan_command dTerm ⟨"delete_scan", [("scan_id", "7")], none, []⟩ =
        (st', .ok "<delete_scan_response status=\"200\" status_text=\"OK\"></delete_scan_response>") ∧
      scan_exists st' "7" = false ∧
      handle_get_scans_command st' ⟨"get_scans", [("scan_id", "7")], none, []⟩ =
        (st', .ok ("<get_scans_response status=\"404\" status_text=\"Failed to find scan '" ++
          "7" ++ "'\"></get_scans_response>"))) :=
  ⟨(claim4_amended dAlive "0" { scan40 with thread := some true } rfl (by decide)).1
      (by decide) rfl,
   (claim4_amended dTerm "7" { scan40 with progress := 100 } rfl (by decide)).2 rfl⟩

/-! ## Claim C5 (confirmed): default merging in start_scan -/

/-- Folding the declared parameters over an option dict never changes keys
outside the declared set. -/
theorem mergeFold_preserve (decls : List (String × ScannerParam)) :
    ∀ (m : List (String × Option String)) (key : String), key ∉ decls.map Prod.fst →
      dictGet (decls.foldl (fun m p => if (dictGet m p.1).isSome then m
        else dictInsert p.1 (some (p.2.default.getD "")) m) m) key = dictGet m key := by
  induction decls with
  | nil => intro m key _; rfl
  | cons q rest ih =>
    intro m key hp
    obtain ⟨qk, qd⟩ := q
    simp only [List.map_cons, List.mem_cons] at hp
    push_neg at hp
    by_cases hq : (dictGet m qk).isSome = true
    · simp only [List.foldl_cons, hq, if_true]
      exact ih m key hp.2
    · simp only [List.foldl_cons]
      rw [if_neg hq, ih _ key hp.2, dictGet_insert_ne _ _ _ _ hp.1]

/-- The value every declared parameter ends up with after the default-merge
fold of `handle_start_scan_command`: the client's when the key is present,
else the declared default (with `''` for an undeclared default). -/
theorem mergeFold_get (decls : List (String × ScannerParam)) :
    ∀ (m : List (String × Option String)) (key : String) (decl : ScannerParam),
      (decls.map Prod.fst).Nodup → (key, decl) ∈ decls →
      dictGet (decls.foldl (fun m p => if (dictGet m p.1).isSome then m
        else dictInsert p.1 (some (p.2.default.getD "")) m) m) key =
        some ((dictGet m key).getD (some (decl.default.getD ""))) := by
  induction decls with
  | nil => intro m key decl _ hmem; cases hmem
  | cons q rest ih =>
    intro m key decl hnd hmem
    obtain ⟨qk, qd⟩ := q
    rw [List.map_cons, List.nodup_cons] at hnd
    rcases List.mem_cons.mp hmem with heq | hmem'
    · rw [Prod.mk.injEq] at heq
      obtain ⟨h1, h2⟩ := heq
      subst h1
      subst h2
      by_cases hq : (dictGet m key).isSome = true
      · simp only [List.foldl_cons, hq, if_true]
        rw [mergeFold_preserve rest m key hnd.1]
        obtain ⟨v, hv⟩ := Option.isSome_iff_exists.mp hq
        rw [hv]
        rfl
      · simp only [List.foldl_cons]
        rw [if_neg hq, mergeFold_preserve rest _ key hnd.1, dictGet_insert_self]
        have hnone : dictGet m key = none := by
          cases hget : dictGet m key
          · rfl
          · rw [hget] at hq
            simp at hq
        rw [hnone]
        rfl
    · have hkmem : key ∈ rest.map Prod.fst := by
        simpa using List.mem_map_of_mem Prod.fst hmem'
      have hkq : key ≠ qk := by
        intro he
        subst he
        exact hnd.1 hkmem
      by_cases hq : (dictGet m qk).isSome = true
      · simp only [List.foldl_cons, hq, if_true]
        exact ih m key decl hnd.2 hmem'
      · simp only [List.foldl_cons]
        rw [if_neg hq, ih _ key decl hnd.2 hmem', dictGet_insert_ne _ _ _ _ hkq]

/-- C5: whenever a `start_scan` request supplies a `scanner_params` element
with any subset of the declared parameters (declared keys being unique, and
the registry's next id fresh, as it always is), the option set stored with
the created scan assigns a value to every declared parameter — the client's
when present, else the declared default; concretely, with client options
empty and a declared default `scan_type = "full"`, the stored options are
exactly `scan_type = "full"`. -/
theorem claim5 :
    (∀ (st : OSPDaemon) (target : String) (clientParams : List XmlElem),
      (st.scanner_params.map Prod.fst).Nodup →
      toString st.scan_collection.nextId ∉ st.scan_collection.scans.map Prod.fst →
      ∃ st' scanId,
        handle_start_scan_command st
          ⟨"start_scan", [("target", target)], none,
            [⟨"scanner_params", [], none, clientParams⟩]⟩ =
          (st', .ok ("<start_scan_response status=\"200\" status_text=\"OK\"><id>" ++ scanId ++
            "</id></start_scan_response>")) ∧
        ∃ opts, get_scan_options st' scanId = some opts ∧
          ∀ p decl, (p, decl) ∈ st.scanner_params →
            dictGet opts p =
              some ((dictGet (clientParams.foldl (fun m c => dictInsert c.tag c.text m) []) p).getD
                (some (decl.default.getD "")))) ∧
    (∃ st', handle_start_scan_command dC5
        ⟨"start_scan", [("target", "10.0.0.1")], none, [⟨"scanner_params", [], none, []⟩]⟩ =
        (st', .ok "<start_scan_response status=\"200\" status_text=\"OK\"><id>0</id></start_scan_response>") ∧
      get_scan_options st' "0" = some [("scan_type", some "full")]) := by
  constructor
  · intro st target clientParams hnd hfresh
    have hbase : dictGet (st.scan_collection.scans ++ [(toString st.scan_collection.nextId,
        (⟨target, st.scanner_params.foldl (fun m p => if (dictGet m p.1).isSome then m
            else dictInsert p.1 (some (p.2.default.getD "")) m)
          (clientParams.foldl (fun m c => dictInsert c.tag c.text m) []), 0, "", "", [], none⟩ :
          Scan))]) (toString st.scan_collection.nextId) =
        some ⟨target, st.scanner_params.foldl (fun m p => if (dictGet m p.1).isSome then m
            else dictInsert p.1 (some (p.2.default.getD "")) m)
          (clientParams.foldl (fun m c => dictInsert c.tag c.text m) []), 0, "", "", [], none⟩ := by
      rw [dictGet_append_of_not_mem _ _ _ hfresh]
      simp [dictGet]
    have hrec := dictGet_update_self _ (toString st.scan_collection.nextId)
      (fun s => { s with thread := some true }) _ hbase
    have hresp : simple_response_str "start_scan" 200 "OK"
        ("<id>" ++ toString st.scan_collection.nextId ++ "</id>") =
        .ok ("<start_scan_response status=\"200\" status_text=\"OK\"><id>" ++
          toString st.scan_collection.nextId ++ "</id></start_scan_response>") := by
      rw [simple_response_str_ok _ _ _ _ (by decide) (by decide) (by decide)]
      refine congrArg _ (strExt _ _ ?_)
      simp only [toListApp, List.append_assoc]
      rfl
    refine ⟨_, toString st.scan_collection.nextId, congrArg (Prod.mk _) hresp, ?_⟩
    refine ⟨st.scanner_params.foldl (fun m p => if (dictGet m p.1).isSome then m
        else dictInsert p.1 (some (p.2.default.getD "")) m)
      (clientParams.foldl (fun m c => dictInsert c.tag c.text m) []), ?_, ?_⟩
    · show (dictGet (ScanCollection.updateAssoc (toString st.scan_collection.nextId)
        (fun s => { s with thread := some true }) (st.scan_collection.scans ++
          [(toString st.scan_collection.nextId, ⟨target, st.scanner_params.foldl (fun m p =>
            if (dictGet m p.1).isSome then m else dictInsert p.1 (some (p.2.default.getD "")) m)
            (clientParams.foldl (fun m c => dictInsert c.tag c.text m) []), 0, "", "", [],
            none⟩)]))
        (toString st.scan_collection.nextId)).map Scan.options = some _
      rw [hrec]
      rfl
    · intro p decl hmem
      exact mergeFold_get st.scanner_params _ p decl hnd hmem
  · exact ⟨_, rfl, rfl⟩

/-- C5 witness: the general statement at the concrete daemon `dC5` with an
empty client parameter set. -/
theorem claim5_witness :
    ∃ st' scanId,
      handle_start_scan_command dC5
        ⟨"start_scan", [("target", "10.0.0.1")], none, [⟨"scanner_params", [], none, []⟩]⟩ =
        (st', .ok ("<start_scan_response status=\"200\" status_text=\"OK\"><id>" ++ scanId ++
          "</id></start_scan_response>")) ∧
      ∃ opts, get_scan_options st' scanId = some opts ∧
        ∀ p decl, (p, decl) ∈ dC5.scanner_params →
          dictGet opts p =
            some ((dictGet (([] : List XmlElem).foldl (fun m c => dictInsert c.tag c.text m) []) p).getD
              (some (decl.default.getD ""))) :=
  claim5.1 dC5 "10.0.0.1" [] (by decide) (by decide)

/-! ## Parsing helpers for claim C8 -/

theorem takeWhile_app (p : Char → Bool) (xs : List Char) (y : Char) (ys : List Char)
    (hxs : ∀ x ∈ xs, p x = true) (hy : p y = false) :
    (xs ++ y :: ys).takeWhile p = xs := by
  induction xs with
  | nil => simp [List.takeWhile_cons, hy]
  | cons a as ih =>
    have ha : p a = true := hxs a (List.mem_cons_self a as)
    simp only [List.cons_append, List.takeWhile_cons, ha, if_true]
    rw [ih (fun x hx => hxs x (List.mem_cons_of_mem a hx))]

theorem dropWhile_app (p : Char → Bool) (xs : List Char) (y : Char) (ys : List Char)
    (hxs : ∀ x ∈ xs, p x = true) (hy : p y = false) :
    (xs ++ y :: ys).dropWhile p = y :: ys := by
  induction xs with
  | nil => simp [List.dropWhile_cons, hy]
  | cons a as ih =>
    have ha : p a = true := hxs a (List.mem_cons_self a as)
    simp only [List.cons_append, List.dropWhile_cons, ha, if_true]
    exact ih (fun x hx => hxs x (List.mem_cons_of_mem a hx))

theorem nameStart_nameChar (c : Char) (h : isNameStartChar c = true) : isNameChar c = true := by
  unfold isNameStartChar at h
  unfold isNameChar Char.isAlphanum
  rw [Bool.or_eq_true] at h
  rcases h with h1 | h2
  · simp [h1]
  · simp [h2]

theorem digitChar_isDigit (m : Nat) (h : m < 10) : (Nat.digitChar m).isDigit = true := by
  interval_cases m <;> decide

theorem toDigitsCore_digits (f : Nat) :
    ∀ (n : Nat) (ds : List Char), (∀ c ∈ ds, c.isDigit = true) →
      ∀ c ∈ Nat.toDigitsCore 10 f n ds, c.isDigit = true := by
  induction f with
  | zero =>
    intro n ds hds c hc
    rw [Nat.toDigitsCore] at hc
    exact hds c hc
  | succ f ih =>
    intro n ds hds c hc
    rw [Nat.toDigitsCore] at hc
    by_cases h : n / 10 = 0
    · rw [if_pos h] at hc
      rcases List.mem_cons.mp hc with rfl | hmem
      · exact digitChar_isDigit _ (Nat.mod_lt _ (by norm_num))
      · exact hds c hmem
    · rw [if_neg h] at hc
      refine ih (n / 10) _ ?_ c hc
      intro c' hc'
      rcases List.mem_cons.mp hc' with rfl | hmem
      · exact digitChar_isDigit _ (Nat.mod_lt _ (by norm_num))
      · exact hds c' hmem

theorem repr_digits (n : Nat) : ∀ c ∈ (toString n).toList, c.isDigit = true := by
  intro c hc
  exact toDigitsCore_digits (n + 1) n [] (by simp) c hc

theorem isDigit_attrValChar (c : Char) (h : c.isDigit = true) : attrValChar c = true := by
  by_cases h1 : c = '"'
  · subst h1
    exact absurd h (by decide)
  · by_cases h2 : c = '<'
    · subst h2
      exact absurd h (by decide)
    · by_cases h3 : c = '&'
      · subst h3
        exact absurd h (by decide)
      · simp [attrValChar, h1, h2, h3]

theorem parseAttrsF_done (f : Nat) (l : List Char) (acc : List (String × String)) :
    parseAttrsF (f + 1) ('>' :: l) acc = some (acc, false, l) := rfl

/-- One `name="value"` attribute step of the modelled attribute scanner. -/
theorem parseAttrsF_step (f : Nat) (c0 : Char) (nmrest : List Char)
    (hstart : isNameStartChar c0 = true)
    (hname : ∀ c ∈ c0 :: nmrest, isNameChar c = true)
    (vl rest : List Char) (hvl : ∀ c ∈ vl, attrValChar c = true)
    (acc : List (String × String)) :
    parseAttrsF (f + 1) (' ' :: ((c0 :: nmrest) ++ '=' :: '"' :: (vl ++ '"' :: rest))) acc =
      parseAttrsF f rest (acc ++ [((c0 :: nmrest).asString, vl.asString)]) := by
  have ht : ((c0 :: nmrest) ++ '=' :: '"' :: (vl ++ '"' :: rest)).takeWhile isNameChar
      = c0 :: nmrest := takeWhile_app _ _ _ _ hname (by decide)
  have hd : ((c0 :: nmrest) ++ '=' :: '"' :: (vl ++ '"' :: rest)).dropWhile isNameChar
      = '=' :: '"' :: (vl ++ '"' :: rest) := dropWhile_app _ _ _ _ hname (by decide)
  have hvt : (vl ++ '"' :: rest).takeWhile attrValChar = vl :=
    takeWhile_app _ _ _ _ hvl (by decide)
  have hvd : (vl ++ '"' :: rest).dropWhile attrValChar = '"' :: rest :=
    dropWhile_app _ _ _ _ hvl (by decide)
  simp only [parseAttrsF, ht, hd, hvt, hvd, hstart, Bool.not_true, Bool.false_eq_true, if_false]

/-- The attribute scanner on the exact two-attribute tail that
`simple_response_str` emits. -/
theorem parseAttrsF_envelope (f : Nat) (hf : 3 ≤ f) (ds ts rest : List Char)
    (hds : ∀ c ∈ ds, attrValChar c = true) (hts : ∀ c ∈ ts, attrValChar c = true) :
    parseAttrsF f (' ' :: (('s' :: "tatus".toList) ++ '=' :: '"' :: (ds ++ '"' ::
      (' ' :: (('s' :: "tatus_text".toList) ++ '=' :: '"' :: (ts ++ '"' :: ('>' :: rest))))))) [] =
      some ([("status", ds.asString), ("status_text", ts.asString)], false, rest) := by
  obtain ⟨f', rfl⟩ : ∃ f', f = f' + 3 := ⟨f - 3, by omega⟩
  rw [show f' + 3 = (f' + 2) + 1 from rfl,
    parseAttrsF_step (f' + 2) 's' "tatus".toList (by decide) (by decide) ds _ hds [],
    show f' + 2 = (f' + 1) + 1 from rfl,
    parseAttrsF_step (f' + 1) 's' "tatus_text".toList (by decide) (by decide) ts _ hts _,
    parseAttrsF_done]
  rfl

/-- The modelled parser on the exact character stream `simple_response_str`
emits: root tag `{command}_response`, the two attributes, the body, the
closing tag. -/
theorem parseXmlList_envelope (c0 : Char) (cs : List Char)
    (hname : ∀ ch ∈ c0 :: cs, isNameStartChar ch = true)
    (ds ts bs : List Char)
    (hds : ∀ ch ∈ ds, attrValChar ch = true) (hts : ∀ ch ∈ ts, attrValChar ch = true)
    (hbs : ∀ ch ∈ bs, textChar ch = true) :
    parseXmlList ('<' :: (((c0 :: cs) ++ "_response".toList) ++ ' ' ::
      (('s' :: "tatus".toList) ++ '=' :: '"' :: (ds ++ '"' ::
        (' ' :: (('s' :: "tatus_text".toList) ++ '=' :: '"' :: (ts ++ '"' ::
          ('>' :: (bs ++ '<' :: '/' :: ((c0 :: cs) ++ ("_response".toList ++ ['>'])))))))))))
      = some ⟨(c0 :: (cs ++ "_response".toList)).asString,
          [("status", ds.asString), ("status_text", ts.asString)],
          if bs = [] then none else some bs.asString, []⟩ := by
  have hall : ∀ ch ∈ (c0 :: cs) ++ "_response".toList, isNameChar ch = true := by
    intro ch hch
    rcases List.mem_append.mp hch with h1 | h2
    · exact nameStart_nameChar ch (hname ch h1)
    · exact (by decide : ∀ ch ∈ "_response".toList, isNameChar ch = true) ch h2
  have htw : (((c0 :: cs) ++ "_response".toList) ++ ' ' ::
      (('s' :: "tatus".toList) ++ '=' :: '"' :: (ds ++ '"' ::
        (' ' :: (('s' :: "tatus_text".toList) ++ '=' :: '"' :: (ts ++ '"' ::
          ('>' :: (bs ++ '<' :: '/' :: ((c0 :: cs) ++ ("_response".toList ++ ['>'])))))))))).takeWhile
        isNameChar = (c0 :: cs) ++ "_response".toList :=
    takeWhile_app _ _ _ _ hall (by decide)
  have hdw : (((c0 :: cs) ++ "_response".toList) ++ ' ' ::
      (('s' :: "tatus".toList) ++ '=' :: '"' :: (ds ++ '"' ::
        (' ' :: (('s' :: "tatus_text".toList) ++ '=' :: '"' :: (ts ++ '"' ::
          ('>' :: (bs ++ '<' :: '/' :: ((c0 :: cs) ++ ("_response".toList ++ ['>'])))))))))).dropWhile
        isNameChar = ' ' ::
      (('s' :: "tatus".toList) ++ '=' :: '"' :: (ds ++ '"' ::
        (' ' :: (('s' :: "tatus_text".toList) ++ '=' :: '"' :: (ts ++ '"' ::
          ('>' :: (bs ++ '<' :: '/' :: ((c0 :: cs) ++ ("_response".toList ++ ['>']))))))))) :=
    dropWhile_app _ _ _ _ hall (by decide)
  have hc0 : isNameStartChar c0 = true := hname c0 (List.mem_cons_self c0 cs)
  have hfuel : 3 ≤ (((c0 :: cs) ++ "_response".toList) ++ ' ' ::
      (('s' :: "tatus".toList) ++ '=' :: '"' :: (ds ++ '"' ::
        (' ' :: (('s' :: "tatus_text".toList) ++ '=' :: '"' :: (ts ++ '"' ::
          ('>' :: (bs ++ '<' :: '/' :: ((c0 :: cs) ++ ("_response".toList ++ ['>'])))))))))).length
        + 1 := by
    simp [List.length_append, List.length_cons]
    omega
  have hattrs := parseAttrsF_envelope
    ((((c0 :: cs) ++ "_response".toList) ++ ' ' ::
      (('s' :: "tatus".toList) ++ '=' :: '"' :: (ds ++ '"' ::
        (' ' :: (('s' :: "tatus_text".toList) ++ '=' :: '"' :: (ts ++ '"' ::
          ('>' :: (bs ++ '<' :: '/' :: ((c0 :: cs) ++ ("_response".toList ++ ['>'])))))))))).length
        + 1) hfuel ds ts (bs ++ '<' :: '/' :: ((c0 :: cs) ++ ("_response".toList ++ ['>'])))
      hds hts
  have htb : (bs ++ '<' :: '/' :: ((c0 :: cs) ++ ("_response".toList ++ ['>']))).takeWhile
      textChar = bs := takeWhile_app _ _ _ _ hbs (by decide)
  have hdb : (bs ++ '<' :: '/' :: ((c0 :: cs) ++ ("_response".toList ++ ['>']))).dropWhile
      textChar = '<' :: '/' :: ((c0 :: cs) ++ ("_response".toList ++ ['>'])) :=
    dropWhile_app _ _ _ _ hbs (by decide)
  have hclose : (c0 :: cs) ++ ("_response".toList ++ ['>'])
      = (c0 :: (cs ++ "_response".toList)) ++ ['>'] := by
    simp [List.append_assoc]
  rw [parseXmlList]
  rw [htw.trans (List.cons_append c0 cs "_response".toList), hdw]
  simp only [hc0, Bool.not_true, Bool.false_eq_true, if_false]
  simp only [hattrs]
  simp only [htb, hdb]
  simp only [hclose]
  simp

/-! ## Claim C8 (corrected: the renderer escapes nothing, so the round trip
needs markup-free inputs) -/

/-- C8 counterexample: a status text containing a quote character.
`simple_response_str` embeds it verbatim, producing
`status_text="a"b"` — not well-formed XML — so parsing recovers neither the
root tag nor the attribute values. -/
theorem claim8_counterexample :
    simple_response_str "x" 200 "a\"b" "" =
      .ok "<x_response status=\"200\" status_text=\"a\"b\"></x_response>" ∧
    parseXml "<x_response status=\"200\" status_text=\"a\"b\"></x_response>" = none := by
  exact ⟨rfl, rfl⟩

/-- C8 (amended): for every command name made of XML name-start characters,
nonzero status code, and non-empty status text, where status text is free
of `"`, `<` and `&` and the body is character data free of `<` and `&`,
parsing the output of `simple_response_str` yields a root tag equal to
`{command}_response` whose `status` and `status_text` attributes equal the
inputs. -/
theorem claim8_amended (command statusText content : String) (status : Nat)
    (hcmd : command.toList ≠ []) (hcmdc : ∀ ch ∈ command.toList, isNameStartChar ch = true)
    (hstatus : status ≠ 0) (hts : statusText ≠ "")
    (htsc : ∀ ch ∈ statusText.toList, attrValChar ch = true)
    (hbody : ∀ ch ∈ content.toList, textChar ch = true) :
    ∃ resp, simple_response_str command status statusText content = .ok resp ∧
      ∃ e, parseXml resp = some e ∧ e.tag = command ++ "_response" ∧
        e.attrib = [("status", toString status), ("status_text", statusText)] := by
  obtain ⟨c0, cs, hc⟩ : ∃ c0 cs, command.toList = c0 :: cs := by
    cases hcl : command.toList with
    | nil => exact absurd hcl hcmd
    | cons a l => exact ⟨a, l, rfl⟩
  have hcne : command ≠ "" := by
    intro he
    rw [he] at hc
    cases hc
  refine ⟨_, simple_response_str_ok command status statusText content hcne hstatus hts, ?_⟩
  have hname : ∀ ch ∈ c0 :: cs, isNameStartChar ch = true := by
    rw [← hc]
    exact hcmdc
  have hds : ∀ ch ∈ (toString status).toList, attrValChar ch = true :=
    fun ch hch => isDigit_attrValChar ch (repr_digits status ch hch)
  have hsplit : ("<" ++ command ++ "_response status=\"" ++ toString status ++
      "\" status_text=\"" ++ statusText ++ "\">" ++ content ++ "</" ++ command ++
      "_response>").toList =
      '<' :: (((c0 :: cs) ++ "_response".toList) ++ ' ' ::
        (('s' :: "tatus".toList) ++ '=' :: '"' :: ((toString status).toList ++ '"' ::
          (' ' :: (('s' :: "tatus_text".toList) ++ '=' :: '"' :: (statusText.toList ++ '"' ::
            ('>' :: (content.toList ++ '<' :: '/' ::
              ((c0 :: cs) ++ ("_response".toList ++ ['>'])))))))))) := by
    rw [← hc]
    simp only [toListApp, List.append_assoc, List.cons_append]
    rfl
  have hparse : parseXml ("<" ++ command ++ "_response status=\"" ++ toString status ++
      "\" status_text=\"" ++ statusText ++ "\">" ++ content ++ "</" ++ command ++
      "_response>") = some ⟨(c0 :: (cs ++ "_response".toList)).asString,
        [("status", (toString status).toList.asString),
         ("status_text", statusText.toList.asString)],
        if content.toList = [] then none else some content.toList.asString, []⟩ := by
    unfold parseXml
    rw [hsplit]
    exact parseXmlList_envelope c0 cs hname (toString status).toList statusText.toList
      content.toList hds htsc hbody
  refine ⟨_, hparse, ?_, rfl⟩
  apply strExt
  show c0 :: (cs ++ "_response".toList) = (command ++ "_response").toList
  rw [toListApp, hc, List.cons_append]

/-- C8 witness: the amended theorem at command `x`, status 200, status text
`OK`, empty body. -/
theorem claim8_witness :
    ∃ resp, simple_response_str "x" 200 "OK" "" = .ok resp ∧
      ∃ e, parseXml resp = some e ∧ e.tag = "x" ++ "_response" ∧
        e.attrib = [("status", toString 200), ("status_text", "OK")] :=
  claim8_amended "x" "OK" "" 200 (by decide) (by decide) (by decide) (by decide)
    (by decide) (by decide)

/-! ## Claim C2 (code bug)

Every complete request is supposed to get exactly one XML response, but the
complete payload `<authenticate/>` passes the known-command check (the tag
is explicitly exempted), reaches the dispatcher's
`assert False, "Unhandled command: ..."`, and the `AssertionError` escapes
`handle_client_stream` — which catches only `OSPDError` — so nothing is
written. -/

/-- C2: evaluating the daemon at the failing input: the complete request
`<authenticate/>` produces no response; `handle_client_stream` ends with an
escaping `AssertionError` instead of writing anything. -/
theorem claim2_code_bug :
    handleRequest initDaemon "<authenticate/>" =
      (initDaemon, .error (.assertionError "Unhandled command: authenticate")) ∧
    command_exists initDaemon "authenticate" = false := by
  exact ⟨rfl, rfl⟩

/-! ## Claim C3 (corrected: the legacy `authenticate` tag is exempt) -/

/-- C3 counterexample: `authenticate` is a well-formed root tag that is not
a known command, yet `handle_command` does not answer with the generic
400 `osp` envelope — it trips the dispatcher's assertion instead. -/
theorem claim3_counterexample :
    command_exists initDaemon "authenticate" = false ∧
    handle_command initDaemon (.ok ⟨"authenticate", [], none, []⟩) =
      (initDaemon, .error (.assertionError "Unhandled command: authenticate")) ∧
    PyError.assertionError "Unhandled command: authenticate" ≠
      .ospdError "Bogus command name" "osp" 400 := by
  refine ⟨rfl, rfl, by decide⟩

/-- C3 (amended): malformed XML raises the generic `osp` 400 error
(`Invalid data`); every well-formed root tag that is neither a known command
nor the legacy `authenticate` tag raises the generic `osp` 400 error
`Bogus command name`, whose client rendering is exactly
`<osp_response status="400" status_text="Bogus command name"></osp_response>`;
in particular the request `<bogus_command/>` is answered with exactly that
string. -/
theorem claim3_amended :
    (∀ st : OSPDaemon,
      handle_command st (.error ()) = (st, .error (.ospdError "Invalid data" "osp" 400))) ∧
    (∀ (st : OSPDaemon) (tree : XmlElem),
      command_exists st tree.tag = false → tree.tag ≠ "authenticate" →
      handle_command st (.ok tree) = (st, .error (.ospdError "Bogus command name" "osp" 400))) ∧
    ospdErrorAsXML "Bogus command name" "osp" 400 =
      .ok "<osp_response status=\"400\" status_text=\"Bogus command name\"></osp_response>" ∧
    handleRequest initDaemon "<bogus_command/>" =
      (initDaemon,
        .ok (some "<osp_response status=\"400\" status_text=\"Bogus command name\"></osp_response>")) := by
  refine ⟨fun st => rfl, fun st tree h1 h2 => ?_, rfl, rfl⟩
  simp [handle_command, h1, h2]

/-- C3 witness: the amended theorem at the concrete unknown tag `zzz`. -/
theorem claim3_witness :
    handle_command initDaemon (.ok ⟨"zzz", [], none, []⟩) =
      (initDaemon, .error (.ospdError "Bogus command name" "osp" 400)) :=
  claim3_amended.2.1 initDaemon ⟨"zzz", [], none, []⟩ rfl (by decide)

/-! ## Claim C6 (confirmed) -/

/-- C6: a `start_scan` request without a `target` attribute raises
`OSPDError('No target attribute', 'start_scan')` — status 400, message
naming the target attribute — and one with a target but no `scanner_params`
element raises the error naming that element; their client renderings carry
status 400 and those messages. -/
theorem claim6 :
    (∀ (st : OSPDaemon) (et : XmlElem), dictGet et.attrib "target" = none →
      handle_start_scan_command st et =
        (st, .error (.ospdError "No target attribute" "start_scan" 400))) ∧
    (∀ (st : OSPDaemon) (et : XmlElem) (target : String),
      dictGet et.attrib "target" = some target →
      et.children.find? (fun c => c.tag = "scanner_params") = none →
      handle_start_scan_command st et =
        (st, .error (.ospdError "No scanner_params element" "start_scan" 400))) ∧
    ospdErrorAsXML "No target attribute" "start_scan" 400 =
      .ok "<start_scan_response status=\"400\" status_text=\"No target attribute\"></start_scan_response>" ∧
    ospdErrorAsXML "No scanner_params element" "start_scan" 400 =
      .ok "<start_scan_response status=\"400\" status_text=\"No scanner_params element\"></start_scan_response>" := by
  refine ⟨fun st et h => ?_, fun st et target h1 h2 => ?_, rfl, rfl⟩
  · simp [handle_start_scan_command, h]
  · simp [handle_start_scan_command, h1, h2]

/-- C6 witness: the theorem at concrete attribute-less and element-less
`start_scan` requests. -/
theorem claim6_witness :
    handle_start_scan_command initDaemon ⟨"start_scan", [], none, []⟩ =
      (initDaemon, .error (.ospdError "No target attribute" "start_scan" 400)) ∧
    handle_start_scan_command initDaemon ⟨"start_scan", [("target", "h")], none, []⟩ =
      (initDaemon, .error (.ospdError "No scanner_params element" "start_scan" 400)) :=
  ⟨claim6.1 initDaemon ⟨"start_scan", [], none, []⟩ rfl,
   claim6.2.1 initDaemon ⟨"start_scan", [("target", "h")], none, []⟩ "h" rfl rfl⟩

/-! ## Claim C9 (confirmed) -/

/-- C9: `simple_response_str` demands a non-empty (Python-truthy) command,
status and status text; an empty one fails the corresponding fatal `assert`
rather than producing any response, and when all three are non-empty no
assertion fires and a response is returned. -/
theorem claim9 (command : String) (status : Nat) (statusText content : String) :
    ((command = "" ∨ status = 0 ∨ statusText = "") →
      ∃ m, simple_response_str command status statusText content =
        .error (.assertionError m)) ∧
    (command ≠ "" → status ≠ 0 → statusText ≠ "" →
      ∃ resp, simple_response_str command status statusText content = .ok resp) := by
  constructor
  · intro h
    rcases h with h | h | h
    · exact ⟨"assert command", by simp [simple_response_str, h]⟩
    · by_cases hc : command = ""
      · exact ⟨"assert command", by simp [simple_response_str, hc]⟩
      · exact ⟨"assert status", by simp [simple_response_str, hc, h]⟩
    · by_cases hc : command = ""
      · exact ⟨"assert command", by simp [simple_response_str, hc]⟩
      · by_cases hs : status = 0
        · exact ⟨"assert status", by simp [simple_response_str, hc, hs]⟩
        · exact ⟨"assert status_text", by simp [simple_response_str, hc, hs, h]⟩
  · intro hc hs ht
    exact ⟨_, simple_response_str_ok command status statusText content hc hs ht⟩

/-- C9 witness: an empty command trips the assertion, and non-empty
arguments produce a response. -/
theorem claim9_witness :
    (∃ m, simple_response_str "" 200 "OK" "" = .error (.assertionError m)) ∧
    (∃ resp, simple_response_str "x" 200 "OK" "" = .ok resp) :=
  ⟨(claim9 "" 200 "OK" "").1 (Or.inl rfl),
   (claim9 "x" 200 "OK" "").2 (by decide) (by decide) (by decide)⟩

/-! ## Claim C10 (confirmed) -/

/-- C10: a `delete_scan` request without a `scan_id` attribute is answered
(not raised) with a `delete_scan` response of status 404 and status text
`No scan_id attribute` — the same 404 used for an unknown scan id — rather
than the 400 used for malformed requests. -/
theorem claim10 :
    (∀ (st : OSPDaemon) (et : XmlElem), dictGet et.attrib "scan_id" = none →
      handle_delete_scan_command st et =
        (st, .ok "<delete_scan_response status=\"404\" status_text=\"No scan_id attribute\"></delete_scan_response>")) ∧
    (∀ (st : OSPDaemon) (scanId : String), scan_exists st scanId = false →
      handle_delete_scan_command st ⟨"delete_scan", [("scan_id", scanId)], none, []⟩ =
        (st, .ok ("<delete_scan_response status=\"404\" status_text=\"Failed to find scan '" ++
          scanId ++ "'\"></delete_scan_response>"))) := by
  constructor
  · intro st et h
    simp [handle_delete_scan_command, h]
    rfl
  · intro st scanId h
    have hne : ("Failed to find scan '" ++ scanId ++ "'") ≠ "" :=
      append_ne_empty_left _ _ (append_ne_empty_left _ _ (by decide))
    rw [handle_delete_scan_command]
    simp only [dictGet, if_pos rfl, h, Bool.not_false, if_true]
    rw [simple_response_str_ok _ _ _ _ (by decide) (by decide) hne]
    refine congrArg _ (congrArg _ (strExt _ _ ?_))
    simp only [toListApp, List.append_assoc]
    rfl

/-! ## Claim C1 (corrected: the failure marker is the result's value, and
its name is empty)

`check_scan_thread` calls `add_scan_error(scan_id, "", "Scan thread
failure.")` — positionally, the *name* is the empty string and the *value*
is `"Scan thread failure."` (with a trailing period), so the appended Error
result does not carry the name the claim states. -/

/-- C1 counterexample: a scan at progress 40 with a dead worker.  The check
appends exactly one Error result, but its name is empty (the marker is the
value `"Scan thread failure."`), so no appended result has the claimed name
`"Scan thread failure"`. -/
theorem claim1_counterexample :
    ∃ st', check_scan_thread d40 "0" = .ok st' ∧
      (dictGet st'.scan_collection.scans "0").map Scan.results =
        some [⟨.error, "", "Scan thread failure.", ""⟩] ∧
      ∀ r ∈ [(⟨.error, "", "Scan thread failure.", ""⟩ : ScanResult)],
        r.name ≠ "Scan thread failure" :=
  ⟨_, rfl, rfl, by decide⟩

/-- C1 (amended): for every scan with progress below 100 whose recorded
worker thread is no longer alive, `check_scan_thread` forces progress to
100 and appends exactly one Error result, whose name is empty and whose
value is `"Scan thread failure."`; the liveness check never leaves this
terminal state — running it again returns the state unchanged and appends
nothing further. -/
theorem claim1_amended (st : OSPDaemon) (scanId : String) (scan : Scan)
    (h : dictGet st.scan_collection.scans scanId = some scan)
    (hprog : scan.progress < 100) (hdead : scan.thread = some false) :
    ∃ st', check_scan_thread st scanId = .ok st' ∧
      dictGet st'.scan_collection.scans scanId =
        some { scan with
               progress := 100
               results := scan.results ++ [⟨.error, "", "Scan thread failure.", ""⟩] } ∧
      check_scan_thread st' scanId = .ok st' := by
  refine ⟨add_scan_error (set_scan_progress st scanId 100) scanId "" "Scan thread failure.",
    ?_, ?_, ?_⟩
  · simp [check_scan_thread, h, hprog, hdead]
  · show dictGet (ScanCollection.updateAssoc scanId _ (ScanCollection.updateAssoc scanId _ _)) _ = _
    rw [dictGet_update_self _ _ _ _ (dictGet_update_self _ _ _ _ h)]
  · have h2 : dictGet (add_scan_error (set_scan_progress st scanId 100) scanId ""
        "Scan thread failure.").scan_collection.scans scanId =
        some { scan with
               progress := 100
               results := scan.results ++ [⟨.error, "", "Scan thread failure.", ""⟩] } := by
      show dictGet (ScanCollection.updateAssoc scanId _ (ScanCollection.updateAssoc scanId _ _)) _ = _
      rw [dictGet_update_self _ _ _ _ (dictGet_update_self _ _ _ _ h)]
    simp [check_scan_thread, h2]

/-- C1 witness: the amended theorem at the concrete dead-worker scan. -/
theorem claim1_witness :
    ∃ st', check_scan_thread d40 "0" = .ok st' ∧
      dictGet st'.scan_collection.scans "0" =
        some { scan40 with
               progress := 100
               results := scan40.results ++ [⟨.error, "", "Scan thread failure.", ""⟩] } ∧
      check_scan_thread st' "0" = .ok st' :=
  claim1_amended d40 "0" scan40 rfl (by decide) rfl

/-! ## Claim C7 (corrected: no quote escaping, and name/severity are
rendered verbatim) -/

/-- C7 counterexample: a result whose name contains `<` and whose value
contains a quote.  `get_result_xml` leaves the name's angle brackets and
the value's quote untouched, so it differs from the claim's uniform
quote-inclusive escaping. -/
theorem claim7_counterexample :
    get_result_xml ⟨.error, "<n>", "a\"b", ""⟩ =
      "<result name=\"<n>\" type=\"Error\" severity=\"\">a\"b</result>" ∧
    get_result_xml ⟨.error, "<n>", "a\"b", ""⟩ ≠ claimedResultXml ⟨.error, "<n>", "a\"b", ""⟩ := by
  exact ⟨rfl, by decide⟩

/-- C7 (amended): `get_result_xml` escapes only the value field, and only
for `&`, `<` and `>` (not the quote character); the three sequential
replacement passes equal one simultaneous pass (so no output of one pass is
re-escaped by another), the escaped value contains no raw `<` or `>`, and
the name and severity fields are rendered verbatim around it. -/
theorem claim7_amended :
    (∀ s : String, xml_escape s = xmlEscapeOnePass s) ∧
    (∀ s : String, '<' ∉ (xml_escape s).toList ∧ '>' ∉ (xml_escape s).toList) ∧
    (∀ r : ScanResult, get_result_xml r =
      "<result name=\"" ++ r.name ++ "\" type=\"" ++ ResultType.get_str r.rtype ++
        "\" severity=\"" ++ r.severity ++ "\">" ++ xml_escape r.value ++ "</result>") := by
  refine ⟨fun s => ?_, fun s => ?_, fun r => rfl⟩
  · unfold xml_escape xmlEscapeOnePass
    rw [escape_passes_eq s.toList]
  · have h := escAllPass_no_angle s.toList
    have he : (xml_escape s).toList = escAllPass s.toList := by
      unfold xml_escape
      rw [escape_passes_eq s.toList]
      rfl
    rw [he]
    exact h

/-- C10 witness: the theorem at a concrete attribute-less request and at a
concrete unknown id. -/
theorem claim10_witness :
    handle_delete_scan_command initDaemon ⟨"delete_scan", [], none, []⟩ =
      (initDaemon, .ok "<delete_scan_response status=\"404\" status_text=\"No scan_id attribute\"></delete_scan_response>") ∧
    handle_delete_scan_command initDaemon ⟨"delete_scan", [("scan_id", "nope")], none, []⟩ =
      (initDaemon, .ok ("<delete_scan_response status=\"404\" status_text=\"Failed to find scan '" ++
        "nope" ++ "'\"></delete_scan_response>")) :=
  ⟨claim10.1 initDaemon ⟨"delete_scan", [], none, []⟩ rfl,
   claim10.2 initDaemon "nope" rfl⟩

end Ospd
